import Mathlib

/-!
Verification development for VirgilLib (src/VirgilLib.hpp), a header-only codec
for the Virgil 2.3.0 JSON control-message protocol.

Modelling conventions (shallow embedding of the C++ source):
* `nlohmann::json` values are modelled by the inductive `Json`.  Like nlohmann,
  the model distinguishes unsigned-integer, signed-integer and floating-point
  number storage (`is_number_unsigned` is true only for the unsigned flavour);
  floating-point numbers are modelled by exact rationals, and objects by
  association lists (key set equality is what matters to the properties here).
* `std::string` contents handled character-by-character by the identifier codec
  are modelled as `List Char`.
* `std::chrono::system_clock::time_point` is modelled at millisecond resolution
  as a `Nat` of milliseconds; the C++ `localtime`/`mktime` computation of
  "midnight of the day of t" is modelled as `t - t % 86400000` (day-floor
  arithmetic, time-zone offset taken as zero), and the ambient "current day"
  used when parsing an identifier is passed explicitly as a `today` midnight
  parameter.  `MessageID::GenerateNew`'s static state is passed explicitly.
* every C++ `throw std::invalid_argument` site is mapped to the structured
  error kind of the spec's error taxonomy that its message text denotes
  (`VErr` below); `nlohmann`'s own `get<T>` type exceptions map to
  `VErr.typeErr`.  The dispatcher's malformed-message error carries the list
  of keys that the C++ message text enumerates; other malformed-message sites
  carry an empty list because their source messages list no keys.
* machine integer narrowing (`get<uint8_t>`, `get<uint16_t>`) is modelled by
  explicit `% 2 ^ 8` / `% 2 ^ 16`; C++ `%` on `Int` is `Int.tmod`.
* the `std::variant<int,float,bool,std::string>` parameter value also carries
  a `VirgilEnum` alternative: the source stores a `VirgilEnum` into it in the
  enum constructor and tests `holds_alternative<VirgilEnum>`, and tests
  `holds_alternative<double>` for the floating alternative; the embedding
  reads both as referring to the enum and float alternatives of the value
  union, the only reading under which the source's checks are meaningful.
-/

/-- JSON values as stored by nlohmann: strings, three number flavours,
booleans, arrays, objects (association lists) and null. -/
inductive Json where
  | jnull : Json
  | jstr : String → Json
  | junsigned : Nat → Json
  | jint : Int → Json
  | jfloat : Rat → Json
  | jbool : Bool → Json
  | jarr : List Json → Json
  | jobj : List (String × Json) → Json

/-- Structured error kinds; each constructor corresponds to one family of
`throw` sites in the source, classified by the spec's error taxonomy. -/
inductive VErr where
  | malformedMessage : List String → VErr
  | unknownMessageType : String → VErr
  | missingField : String → VErr
  | typeMismatch : String → VErr
  | typeErr : VErr
  | valueOutOfRange : VErr
  | constraintViolation : VErr
  | invalidState : VErr
  | unknownDataType : String → VErr
deriving DecidableEq

def upsertKey : List (String × Json) → String → Json → List (String × Json)
  | [], k, v => [(k, v)]
  | (k', v') :: rest, k, v =>
    if k' = k then (k, v) :: rest else (k', v') :: upsertKey rest k v

/-- Model of `j[key] = v` on an nlohmann object (or fresh null value). -/
def Json.setKey : Json → String → Json → Json
  | .jobj kvs, k, v => .jobj (upsertKey kvs k v)
  | _, k, v => .jobj [(k, v)]

def lookupKey : List (String × Json) → String → Option Json
  | [], _ => none
  | (k', v') :: rest, k => if k' = k then some v' else lookupKey rest k

/-- Model of `j.at(key)` lookup (as an `Option`). -/
def Json.getKey : Json → String → Option Json
  | .jobj kvs, k => lookupKey kvs k
  | _, _ => none

/-- Model of `j.contains(key)`. -/
def Json.containsKey (j : Json) (k : String) : Bool :=
  (j.getKey k).isSome

/-- The keys of a JSON object, as enumerated by the C++ error-message lambdas. -/
def Json.keys : Json → List String
  | .jobj kvs => kvs.map Prod.fst
  | _ => []

/-- Model of `is_number_unsigned()`: true only for the unsigned storage flavour. -/
def Json.isNumberUnsigned : Json → Bool
  | .junsigned _ => true
  | _ => false

/-- Model of `get<std::string>()`. -/
def Json.getStr : Json → Except VErr String
  | .jstr s => .ok s
  | _ => .error .typeErr

/-- Model of `get<bool>()`. -/
def Json.getBoolV : Json → Except VErr Bool
  | .jbool b => .ok b
  | _ => .error .typeErr

/-- Model of `get<int>()`: nlohmann converts any arithmetic storage
(unsigned, signed, float, boolean) with truncation. -/
def Json.getIntV : Json → Except VErr Int
  | .junsigned n => .ok (Int.ofNat n)
  | .jint z => .ok z
  | .jfloat q => .ok (if 0 ≤ q then Int.floor q else Int.ceil q)
  | .jbool b => .ok (if b then 1 else 0)
  | _ => .error .typeErr

/-- Model of `get<float>()` (floats modelled as exact rationals). -/
def Json.getRatV : Json → Except VErr Rat
  | .junsigned n => .ok (n : Rat)
  | .jint z => .ok (z : Rat)
  | .jfloat q => .ok q
  | .jbool b => .ok (if b then 1 else 0)
  | _ => .error .typeErr

def kMessageType : String := "messageType"
def kMessageID : String := "messageID"
def kResponseID : String := "responseID"
def kChannelLink : String := "channelLink"
def kChannelUnlink : String := "channelUnlink"
def kEndResponse : String := "endResponse"
def kErrorResponse : String := "errorResponse"
def kInfoRequest : String := "infoRequest"
def kInfoResponse : String := "infoResponse"
def kChannelIndex : String := "channelIndex"
def kChannelType : String := "channelType"
def kSendingChannelIndex : String := "sendingChannelIndex"
def kSendingChannelType : String := "sendingChannelType"
def kDataType : String := "dataType"
def kValue : String := "value"
def kReadOnly : String := "readOnly"
def kUnit : String := "unit"
def kMinValue : String := "minValue"
def kMaxValue : String := "maxValue"
def kPrecision : String := "precision"
def kEnumValues : String := "enumValues"
def kLinkedChannels : String := "linkedChannels"
def kDeviceName : String := "deviceName"
def kNumber : String := "number"
def kBoolT : String := "bool"
def kStringT : String := "string"
def kEnumT : String := "enum"
def kIntT : String := "int"
def kFloatT : String := "float"

/-- Milliseconds in one day. -/
def dayMs : Nat := 86400000

/-- Model of the `MessageID` struct: a millisecond-resolution timestamp and the
`uint16_t` per-millisecond sequence index. -/
structure MessageID where
  timeSent : Nat
  messageIndex : Nat
deriving DecidableEq

/-- Model of `MessageID::operator bool`: set iff the timestamp is not the epoch
or the index is nonzero. -/
def MessageID.isSet (id : MessageID) : Bool :=
  decide (id.timeSent ≠ 0) || decide (id.messageIndex ≠ 0)

/-- The decimal digit character for a digit value. -/
def digitChar (d : Nat) : Char := Char.ofNat (48 + d)

/-- Fuelled most-significant-first decimal digit expansion. -/
def digitsAux : Nat → Nat → List Nat
  | 0, _ => []
  | fuel + 1, n => if n < 10 then [n] else digitsAux fuel (n / 10) ++ [n % 10]

/-- Decimal digits of a natural number, most significant first. -/
def digitsN (n : Nat) : List Nat := digitsAux (n + 1) n

/-- Model of `std::setw(w) << std::setfill('0') << n` for a decimal stream:
zero-pad on the left to a MINIMUM width `w` (wider numbers overflow the field,
exactly as `setw` permits). -/
def padNum (w n : Nat) : List Char :=
  List.replicate (w - (digitsN n).length) '0' ++ (digitsN n).map digitChar

/-- Model of `MessageID::to_string`: hour, minute, second, millisecond of the
timestamp's own day, then the sequence index, each zero-padded. -/
def MessageID.to_string (id : MessageID) : List Char :=
  let msAll := id.timeSent % dayMs
  let hour := msAll / 3600000
  let rem1 := msAll % 3600000
  let minute := rem1 / 60000
  let rem2 := rem1 % 60000
  let second := rem2 / 1000
  let milli := rem2 % 1000
  padNum 2 hour ++ padNum 2 minute ++ padNum 2 second ++
    padNum 3 milli ++ padNum 3 id.messageIndex

/-- Numeric value of a digit character. -/
def charVal (c : Char) : Nat := c.toNat - 48

/-- Model of `std::stoi` on a string of decimal digit characters. -/
def readNum (cs : List Char) : Nat :=
  cs.foldl (fun a c => 10 * a + charVal c) 0

/-- Model of the `MessageID(const std::string&)` constructor: requires exactly
12 decimal digits (else the malformed-message error), then splits
hour(2)/minute(2)/second(2)/millisecond(3)/sequence(3) and anchors the
timestamp at the given `today` midnight.  No range validation is performed on
any component. -/
def MessageID.fromChars (today : Nat) (cs : List Char) : Except VErr MessageID :=
  if cs.length ≠ 12 then .error (.malformedMessage [])
  else if ¬ (cs.all Char.isDigit) then .error (.malformedMessage [])
  else
    let idx := readNum ((cs.drop 9).take 3)
    let hour := readNum (cs.take 2)
    let minute := readNum ((cs.drop 2).take 2)
    let second := readNum ((cs.drop 4).take 2)
    let milli := readNum ((cs.drop 6).take 3)
    .ok ⟨today + (hour * 3600000 + minute * 60000 + second * 1000 + milli), idx⟩

/-- The static generator state of `MessageID::GenerateNew`. -/
structure GenState where
  timeLastSent : Nat
  currentMessageIndex : Nat
deriving DecidableEq

/-- Model of `MessageID::GenerateNew`, with the wall clock passed explicitly:
same clock reading increments the `uint16_t` counter, a new reading resets it. -/
def MessageID.GenerateNew (now : Nat) (st : GenState) : MessageID × GenState :=
  if now = st.timeLastSent then
    let i := (st.currentMessageIndex + 1) % 65536
    (⟨now, i⟩, ⟨st.timeLastSent, i⟩)
  else
    (⟨now, 0⟩, ⟨now, 0⟩)

/-- The rendered identifier as a `String` (used where messages store it in
JSON string fields). -/
def MessageID.strVal (id : MessageID) : String := String.mk id.to_string

/-- The payload of an unsigned JSON number (callers check
`isNumberUnsigned` first, mirroring the source's check-then-get pattern). -/
def Json.unsignedVal : Json → Nat
  | .junsigned n => n
  | _ => .zero

/-- Model of `j.at(key)` where containment was already checked. -/
def Json.atKey (j : Json) (k : String) : Json :=
  (j.getKey k).getD .jnull

/-- Model of the `ChannelID` struct.  `LinkType` is an `enum class : uint8_t`
into which the JSON constructor casts ARBITRARY `uint8_t` values
(`static_cast<LinkType>` performs no range check), so the kind is modelled as
the raw underlying byte: tx = 0, rx = 1, aux = 2. -/
structure ChannelID where
  channelIndex : Nat
  channelType : Nat
deriving DecidableEq

/-- Model of `ChannelID::IsAux`. -/
def ChannelID.IsAux (c : ChannelID) : Bool := c.channelType == 2

/-- Model of `ChannelID(const nlohmann::json&, indexField, typeField)`: a
missing field fails with `MissingField`; a field whose storage is not an
unsigned JSON number fails with `TypeMismatch`; otherwise the type value is
narrowed through `get<uint8_t>` and the index through `get<uint16_t>`, with NO
check against the closed kind set. -/
def ChannelID.fromJson (j : Json) (idxName typeName : String) :
    Except VErr ChannelID :=
  match j.getKey typeName with
  | none => .error (.missingField typeName)
  | some tv =>
    if tv.isNumberUnsigned = false then .error (.typeMismatch typeName)
    else
      match j.getKey idxName with
      | none => .error (.missingField idxName)
      | some iv =>
        if iv.isNumberUnsigned = false then .error (.typeMismatch idxName)
        else .ok ⟨iv.unsignedVal % 65536, tv.unsignedVal % 256⟩

/-- Model of the default-field-name `ChannelID(const nlohmann::json&)`
constructor. -/
def ChannelID.fromJsonDefault (j : Json) : Except VErr ChannelID :=
  ChannelID.fromJson j kChannelIndex kChannelType

/-- Model of `ChannelID::AppendJson` with custom field names; both fields are
always written (as unsigned numbers, like the `uint16_t`/enum sources). -/
def ChannelID.AppendJson (c : ChannelID) (j : Json) (idxName typeName : String) :
    Json :=
  (j.setKey idxName (.junsigned c.channelIndex)).setKey typeName
    (.junsigned c.channelType)

/-- Model of `ChannelID::AppendJson` with the default field names. -/
def ChannelID.AppendJsonDefault (c : ChannelID) (j : Json) : Json :=
  c.AppendJson j kChannelIndex kChannelType

/-- Model of the `VirgilEnum` struct. -/
structure VirgilEnum where
  value : String
  enumValues : List String
deriving DecidableEq

/-- Model of `VirgilEnum::operator bool`: the list of allowed values is
non-empty and contains the current value. -/
def VirgilEnum.isValid (e : VirgilEnum) : Bool :=
  decide (1 ≤ e.enumValues.length) && e.enumValues.contains e.value

/-- The alternatives of the parameter value union (see the modelling notes on
the enum and float alternatives). -/
inductive PValue where
  | pint : Int → PValue
  | pfloat : Rat → PValue
  | pbool : Bool → PValue
  | pstr : String → PValue
  | penum : VirgilEnum → PValue
deriving DecidableEq

/-- The `std::variant<int,float>` used by minValue/maxValue/precision. -/
inductive NumV where
  | nint : Int → NumV
  | nfloat : Rat → NumV
deriving DecidableEq

/-- Model of the `Parameter` struct (all fields public in the source). -/
structure Parameter where
  name : String
  dataType : String
  unit : Option String
  value : PValue
  minValue : Option NumV
  maxValue : Option NumV
  precision : Option NumV
  readOnly : Bool
deriving DecidableEq

/-- Model of the string-parameter constructor. -/
def Parameter.mkString (paramName paramValue : String) (isReadOnly : Bool) :
    Except VErr Parameter :=
  if paramName.isEmpty then .error .constraintViolation
  else .ok ⟨paramName, kStringT, none, .pstr paramValue, none, none, none, isReadOnly⟩

/-- Model of the bool-parameter constructor. -/
def Parameter.mkBool (paramName : String) (paramValue : Bool) (isReadOnly : Bool) :
    Except VErr Parameter :=
  if paramName.isEmpty then .error .constraintViolation
  else .ok ⟨paramName, kBoolT, none, .pbool paramValue, none, none, none, isReadOnly⟩

/-- Model of the enum-parameter constructor. -/
def Parameter.mkEnum (paramName : String) (paramValue : VirgilEnum)
    (isReadOnly : Bool) : Except VErr Parameter :=
  if paramName.isEmpty then .error .constraintViolation
  else if paramValue.isValid = false then .error .constraintViolation
  else .ok ⟨paramName, kEnumT, none, .penum paramValue, none, none, none, isReadOnly⟩

/-- True when both bounds are given and the minimum exceeds the maximum. -/
def badBoundsI : Option Int → Option Int → Bool
  | some mn, some mx => decide (mn > mx)
  | _, _ => false

/-- True when a precision is given and is not positive. -/
def badPrecI : Option Int → Bool
  | some p => decide (p ≤ 0)
  | none => false

/-- True when the initial value breaks the step or range rule (all three
constraints given); C++ `%` on `int` is truncated division, `Int.tmod`. -/
def badValueI (v : Int) : Option Int → Option Int → Option Int → Bool
  | some mn, some mx, some p =>
    decide (Int.tmod (v - mn) p ≠ 0) || decide (v < mn) || decide (v > mx)
  | _, _, _ => false

/-- Model of the int-parameter constructor.  The validation below uses the
ARGUMENTS, but the source's final `if(minValue) minValue = minVal;` lines test
the just default-initialised MEMBER optionals (always disengaged), so the
constraint fields of the constructed parameter are always absent. -/
def Parameter.mkInt (paramName : String) (paramValue : Int) (isReadOnly : Bool)
    (unitStr : String) (minVal maxVal prec : Option Int) : Except VErr Parameter :=
  if paramName.isEmpty then .error .constraintViolation
  else if unitStr.isEmpty then .error .constraintViolation
  else if badBoundsI minVal maxVal then .error .constraintViolation
  else if badPrecI prec then .error .constraintViolation
  else if ¬ isReadOnly ∧ (minVal.isNone ∨ maxVal.isNone ∨ prec.isNone) then
    .error .constraintViolation
  else if ¬ isReadOnly ∧ badValueI paramValue minVal maxVal prec then
    .error .constraintViolation
  else
    .ok ⟨paramName, kNumber, some unitStr, .pint paramValue, none, none, none,
      isReadOnly⟩

def badBoundsF : Option Rat → Option Rat → Bool
  | some mn, some mx => decide (mn > mx)
  | _, _ => false

def badPrecF : Option Rat → Bool
  | some p => decide (p ≤ 0)
  | none => false

/-- Model of the float-parameter constructor: same checks as the int one
except that NO step/range validation of the value is performed; the member
optional bug drops the constraint fields here too. -/
def Parameter.mkFloat (paramName : String) (paramValue : Rat) (isReadOnly : Bool)
    (unitStr : String) (minVal maxVal prec : Option Rat) : Except VErr Parameter :=
  if paramName.isEmpty then .error .constraintViolation
  else if unitStr.isEmpty then .error .constraintViolation
  else if badBoundsF minVal maxVal then .error .constraintViolation
  else if badPrecF prec then .error .constraintViolation
  else if ¬ isReadOnly ∧ (minVal.isNone ∨ maxVal.isNone ∨ prec.isNone) then
    .error .constraintViolation
  else
    .ok ⟨paramName, kNumber, some unitStr, .pfloat paramValue, none, none, none,
      isReadOnly⟩

/-- Model of `get<std::vector<std::string>>()`. -/
def Json.getStrList : Json → Except VErr (List String)
  | .jarr xs => xs.mapM Json.getStr
  | _ => .error .typeErr

/-- Optional integer field read (`if(j.contains(k)) x = j.at(k).get<int>()`). -/
def getOptInt (j : Json) (k : String) : Except VErr (Option Int) :=
  if j.containsKey k then do
    let v ← (j.atKey k).getIntV
    pure (some v)
  else pure none

/-- Optional float field read. -/
def getOptRat (j : Json) (k : String) : Except VErr (Option Rat) :=
  if j.containsKey k then do
    let v ← (j.atKey k).getRatV
    pure (some v)
  else pure none

/-- Model of `Parameter(const std::string&, const nlohmann::json&)`: requires
dataType, value and readOnly, then dispatches on the dataType string; only
"string", "bool", "enum", "int" and "float" are recognised. -/
def Parameter.fromJson (paramName : String) (j : Json) : Except VErr Parameter := do
  if j.containsKey kDataType = false then throw (.missingField kDataType)
  if j.containsKey kValue = false then throw (.missingField kValue)
  if j.containsKey kReadOnly = false then throw (.missingField kReadOnly)
  let isReadOnly ← (j.atKey kReadOnly).getBoolV
  let dataTypeStr ← (j.atKey kDataType).getStr
  if dataTypeStr = kStringT then do
    let v ← (j.atKey kValue).getStr
    Parameter.mkString paramName v isReadOnly
  else if dataTypeStr = kBoolT then do
    let v ← (j.atKey kValue).getBoolV
    Parameter.mkBool paramName v isReadOnly
  else if dataTypeStr = kEnumT then do
    let v ← (j.atKey kValue).getStr
    if j.containsKey kEnumValues = false then throw (.missingField kEnumValues)
    let evs ← (j.atKey kEnumValues).getStrList
    Parameter.mkEnum paramName ⟨v, evs⟩ isReadOnly
  else if dataTypeStr = kIntT then do
    if j.containsKey kUnit = false then throw (.missingField kUnit)
    let unitStr ← (j.atKey kUnit).getStr
    let v ← (j.atKey kValue).getIntV
    let minV ← getOptInt j kMinValue
    let maxV ← getOptInt j kMaxValue
    let prec ← getOptInt j kPrecision
    Parameter.mkInt paramName v isReadOnly unitStr minV maxV prec
  else if dataTypeStr = kFloatT then do
    if j.containsKey kUnit = false then throw (.missingField kUnit)
    let unitStr ← (j.atKey kUnit).getStr
    let v ← (j.atKey kValue).getRatV
    let minV ← getOptRat j kMinValue
    let maxV ← getOptRat j kMaxValue
    let prec ← getOptRat j kPrecision
    Parameter.mkFloat paramName v isReadOnly unitStr minV maxV prec
  else throw (.unknownDataType dataTypeStr)

/-- JSON rendering of a parameter value alternative.  The enum alternative has
no serialiser in the source (the struct cannot be serialised by nlohmann as
written); it is rendered as its current string value — no theorem below
depends on that alternative. -/
def PValue.toJson : PValue → Json
  | .pint z => .jint z
  | .pfloat q => .jfloat q
  | .pbool b => .jbool b
  | .pstr s => .jstr s
  | .penum e => .jstr e.value

/-- JSON rendering of a numeric constraint value. -/
def NumV.toJson : NumV → Json
  | .nint z => .jint z
  | .nfloat q => .jfloat q

/-- Model of `Parameter::to_json`: emits dataType, value and readOnly, then
each optional field only if present (the stored dataType string is emitted
verbatim — "number" for numeric parameters). -/
def Parameter.to_json (p : Parameter) : Except VErr Json :=
  if p.name.isEmpty then .error .invalidState
  else
    let j := (Json.jobj []).setKey kDataType (.jstr p.dataType)
    let j := j.setKey kValue p.value.toJson
    let j := j.setKey kReadOnly (.jbool p.readOnly)
    let j := match p.unit with | some u => j.setKey kUnit (.jstr u) | none => j
    let j := match p.minValue with | some v => j.setKey kMinValue v.toJson | none => j
    let j := match p.maxValue with | some v => j.setKey kMaxValue v.toJson | none => j
    let j := match p.precision with | some v => j.setKey kPrecision v.toJson | none => j
    .ok j

/-- Model of `Parameter::operator bool`: re-checks the name, the
alternative/dataType consistency, and for editable numbers the PRESENCE and
subtype-consistency of the three constraint fields — but neither the range
nor the step of the value. -/
def Parameter.isValid (p : Parameter) : Bool :=
  if p.name.isEmpty then false
  else if p.dataType = kEnumT then
    match p.value with
    | .penum e => e.isValid
    | _ => false
  else if p.dataType = kNumber then
    match p.value with
    | .pint _ =>
      if p.readOnly then true
      else
        match p.minValue, p.maxValue, p.precision with
        | some (.nint _), some (.nint _), some (.nint _) => true
        | _, _, _ => false
    | .pfloat _ =>
      if p.readOnly then true
      else
        match p.minValue, p.maxValue, p.precision with
        | some (.nfloat _), some (.nfloat _), some (.nfloat _) => true
        | _, _, _ => false
    | _ => false
  else if p.dataType = kBoolT then
    match p.value with
    | .pbool _ => true
    | _ => false
  else if p.dataType = kStringT then
    match p.value with
    | .pstr _ => true
    | _ => false
  else false

/-- Model of the `LinkedChannelInfo` struct. -/
structure LinkedChannelInfo where
  deviceName : String
  channel : ChannelID
deriving DecidableEq

/-- Model of `LinkedChannelInfo::operator bool`. -/
def LinkedChannelInfo.isValid (l : LinkedChannelInfo) : Bool :=
  !l.deviceName.isEmpty

/-- Model of `LinkedChannelInfo::to_json`. -/
def LinkedChannelInfo.to_json (l : LinkedChannelInfo) : Except VErr Json :=
  if l.isValid = false then .error .invalidState
  else .ok (l.channel.AppendJsonDefault
    ((Json.jobj []).setKey kDeviceName (.jstr l.deviceName)))

/-- Model of the `ChannelLink` message (shared `Message` header inlined). -/
structure ChannelLink where
  selfID : MessageID
  responseID : Option MessageID
  isOutbound : Bool
  sendingChannel : ChannelID
  receivingChannel : Option ChannelID
deriving DecidableEq

/-- Model of the `ChannelUnlink` message. -/
structure ChannelUnlink where
  selfID : MessageID
  responseID : Option MessageID
  isOutbound : Bool
  sendingChannel : ChannelID
  receivingChannel : Option ChannelID
deriving DecidableEq

/-- Model of the `InfoRequest` message. -/
structure InfoRequest where
  selfID : MessageID
  responseID : Option MessageID
  isOutbound : Bool
  channel : ChannelID
deriving DecidableEq

/-- Model of the `InfoResponse` message. -/
structure InfoResponse where
  selfID : MessageID
  responseID : Option MessageID
  isOutbound : Bool
  channel : ChannelID
  linkedChannels : List LinkedChannelInfo
  parameters : List Parameter

/-- Model of the programmatic `ChannelLink(msgId, outbound, sendChan,
recvChan, respId)` constructor: `receivingChannel = *recvChan` and
`responseID = *respId` dereference the optional ARGUMENTS unconditionally;
dereferencing a disengaged `std::optional` is undefined behaviour, modelled
here as `none`. -/
def ChannelLink.mkProg (msgId : MessageID) (outbound : Bool)
    (sendChan : ChannelID) (recvChan : Option ChannelID)
    (respId : Option MessageID) : Option ChannelLink := do
  let r ← recvChan
  let p ← respId
  pure ⟨msgId, some p, outbound, sendChan, some r⟩

/-- Model of the programmatic `ChannelUnlink` constructor (same unconditional
dereferences as `ChannelLink`). -/
def ChannelUnlink.mkProg (msgId : MessageID) (outbound : Bool)
    (sendChan : ChannelID) (recvChan : Option ChannelID)
    (respId : Option MessageID) : Option ChannelUnlink := do
  let r ← recvChan
  let p ← respId
  pure ⟨msgId, some p, outbound, sendChan, some r⟩

/-- Model of the programmatic `InfoRequest(msgId, outbound, channelId,
respId)` constructor: `responseID = *respId` dereferences unconditionally. -/
def InfoRequest.mkProg (msgId : MessageID) (outbound : Bool)
    (channelId : ChannelID) (respId : Option MessageID) : Option InfoRequest := do
  let p ← respId
  pure ⟨msgId, some p, outbound, channelId⟩

/-- Model of the id-less programmatic `InfoRequest(outbound, channelId,
respId)` constructor (also dereferences `respId` unconditionally). -/
def InfoRequest.mkProgNoId (outbound : Bool) (channelId : ChannelID)
    (respId : Option MessageID) : Option InfoRequest := do
  let p ← respId
  pure ⟨⟨0, 0⟩, some p, outbound, channelId⟩

/-- Model of `ChannelLink(const nlohmann::json&, bool)`. -/
def ChannelLink.fromJson (today : Nat) (j : Json) (outbound : Bool) :
    Except VErr ChannelLink := do
  if j.containsKey kMessageType = false then throw (.malformedMessage [])
  let msgType ← (j.atKey kMessageType).getStr
  if msgType ≠ kChannelLink then throw (.malformedMessage [])
  if j.containsKey kMessageID = false then throw (.malformedMessage [])
  let midStr ← (j.atKey kMessageID).getStr
  let selfId ← MessageID.fromChars today midStr.toList
  let respId ← if j.containsKey kResponseID then do
      let rs ← (j.atKey kResponseID).getStr
      let rid ← MessageID.fromChars today rs.toList
      pure (some rid)
    else pure (some (⟨0, 0⟩ : MessageID))
  let sending ← ChannelID.fromJson j kSendingChannelIndex kSendingChannelType
  let receiving ← if j.containsKey kChannelIndex || j.containsKey kChannelType then do
      let c ← ChannelID.fromJsonDefault j
      pure (some c)
    else pure (none : Option ChannelID)
  pure ⟨selfId, respId, outbound, sending, receiving⟩

/-- Model of `ChannelUnlink(const nlohmann::json&, bool)`. -/
def ChannelUnlink.fromJson (today : Nat) (j : Json) (outbound : Bool) :
    Except VErr ChannelUnlink := do
  if j.containsKey kMessageType = false then throw (.malformedMessage [])
  let msgType ← (j.atKey kMessageType).getStr
  if msgType ≠ kChannelUnlink then throw (.malformedMessage [])
  if j.containsKey kMessageID = false then throw (.malformedMessage [])
  let midStr ← (j.atKey kMessageID).getStr
  let selfId ← MessageID.fromChars today midStr.toList
  let respId ← if j.containsKey kResponseID then do
      let rs ← (j.atKey kResponseID).getStr
      let rid ← MessageID.fromChars today rs.toList
      pure (some rid)
    else pure (some (⟨0, 0⟩ : MessageID))
  let sending ← ChannelID.fromJson j kSendingChannelIndex kSendingChannelType
  let receiving ← if j.containsKey kChannelIndex || j.containsKey kChannelType then do
      let c ← ChannelID.fromJsonDefault j
      pure (some c)
    else pure (none : Option ChannelID)
  pure ⟨selfId, respId, outbound, sending, receiving⟩

/-- Model of `ChannelLink::to_json`; the fresh identifier that
`MessageID::GenerateNew()` would produce for an unset `selfID` is passed
explicitly. -/
def ChannelLink.to_json (fresh : MessageID) (m : ChannelLink) :
    Except VErr Json := do
  let j := (Json.jobj []).setKey kMessageType (.jstr kChannelLink)
  let j := if m.selfID.isSet then j.setKey kMessageID (.jstr m.selfID.strVal)
    else j.setKey kMessageID (.jstr fresh.strVal)
  let j := match m.responseID with
    | some rid => j.setKey kResponseID (.jstr rid.strVal)
    | none => j
  let j := m.sendingChannel.AppendJson j kSendingChannelIndex kSendingChannelType
  if !m.sendingChannel.IsAux && m.receivingChannel.isNone then
    throw .constraintViolation
  let j := match m.receivingChannel with
    | some rc => rc.AppendJsonDefault j
    | none => j
  pure j

/-- Model of `ChannelUnlink::to_json` (the responseID field is written last,
after the channel fields, as in the source). -/
def ChannelUnlink.to_json (fresh : MessageID) (m : ChannelUnlink) :
    Except VErr Json := do
  let j := (Json.jobj []).setKey kMessageType (.jstr kChannelUnlink)
  let j := if m.selfID.isSet then j.setKey kMessageID (.jstr m.selfID.strVal)
    else j.setKey kMessageID (.jstr fresh.strVal)
  let j := m.sendingChannel.AppendJson j kSendingChannelIndex kSendingChannelType
  if !m.sendingChannel.IsAux && m.receivingChannel.isNone then
    throw .constraintViolation
  let j := match m.receivingChannel with
    | some rc => rc.AppendJsonDefault j
    | none => j
  let j := match m.responseID with
    | some rid => j.setKey kResponseID (.jstr rid.strVal)
    | none => j
  pure j

/-- Model of `InfoResponse::to_json`.  The source writes the REQUEST tag
"infoRequest" into the messageType field. -/
def InfoResponse.to_json (fresh : MessageID) (m : InfoResponse) :
    Except VErr Json := do
  if m.responseID.isNone then throw .invalidState
  let j := (Json.jobj []).setKey kMessageType (.jstr kInfoRequest)
  let j := if m.selfID.isSet then j.setKey kMessageID (.jstr m.selfID.strVal)
    else j.setKey kMessageID (.jstr fresh.strVal)
  let j := match m.responseID with
    | some rid => j.setKey kResponseID (.jstr rid.strVal)
    | none => j
  let arr ← m.linkedChannels.mapM LinkedChannelInfo.to_json
  let j := j.setKey kLinkedChannels (.jarr arr)
  let j ← m.parameters.foldlM (fun acc p => do
      let pj ← p.to_json
      pure (acc.setKey p.name pj)) j
  pure (m.channel.AppendJsonDefault j)

/-- The variants the dispatcher can actually construct. -/
inductive Msg where
  | link : ChannelLink → Msg
  | unlink : ChannelUnlink → Msg
deriving DecidableEq

/-- Model of `Message::FromJSON`: requires the messageType tag (the
malformed-message error lists the object's keys), then matches it against the
two implemented tags only; EVERY other tag value falls to the
unknown-message-type error. -/
def Message.FromJSON (today : Nat) (j : Json) (outbound : Bool) :
    Except VErr Msg := do
  if j.containsKey kMessageType = false then
    throw (.malformedMessage j.keys)
  let messageType ← (j.atKey kMessageType).getStr
  if messageType = kChannelLink then
    let m ← ChannelLink.fromJson today j outbound
    pure (.link m)
  else if messageType = kChannelUnlink then
    let m ← ChannelUnlink.fromJson today j outbound
    pure (.unlink m)
  else throw (.unknownMessageType messageType)

/-- Name of the example parameter used in the Parameter theorems. -/
def pGain : String := "gain"

/-- Unit string of the example parameter used in the Parameter theorems. -/
def uDB : String := "dB"

/-! Arithmetic facts about the decimal digit helpers. -/

/-- Value of a most-significant-first digit list. -/
def readDigits (ds : List Nat) : Nat :=
  ds.foldl (fun a d => 10 * a + d) 0

lemma readDigits_foldl_init (ds : List Nat) (a : Nat) :
    ds.foldl (fun a d => 10 * a + d) a = a * 10 ^ ds.length + readDigits ds := by
  induction ds generalizing a with
  | nil => simp [readDigits]
  | cons d ds ih =>
      have hd : readDigits (d :: ds) = ds.foldl (fun a d => 10 * a + d) d := by
        simp [readDigits]
      simp only [List.foldl_cons, List.length_cons, hd]
      rw [ih (10 * a + d), ih d]
      ring

lemma readDigits_append (xs ys : List Nat) :
    readDigits (xs ++ ys) = readDigits xs * 10 ^ ys.length + readDigits ys := by
  have h : readDigits (xs ++ ys) =
      ys.foldl (fun a d => 10 * a + d) (readDigits xs) := by
    simp [readDigits, List.foldl_append]
  rw [h, readDigits_foldl_init]

lemma readDigits_replicate_zero (k : Nat) :
    readDigits (List.replicate k 0) = 0 := by
  induction k with
  | zero => simp [readDigits]
  | succ k ih =>
      have h : readDigits (List.replicate (k + 1) 0) =
          readDigits (List.replicate k 0) := by
        simp [readDigits, List.replicate_succ]
      rw [h, ih]

lemma digitsAux_sound : ∀ (fuel n : Nat), n < fuel →
    readDigits (digitsAux fuel n) = n ∧ (∀ d ∈ digitsAux fuel n, d < 10) := by
  intro fuel
  induction fuel with
  | zero => intro n h; omega
  | succ fuel ih =>
      intro n h
      by_cases h10 : n < 10
      · constructor
        · simp [digitsAux, h10, readDigits]
        · intro d hd
          simp [digitsAux, h10] at hd
          omega
      · have hdiv : n / 10 < fuel := by omega
        obtain ⟨ihv, ihd⟩ := ih (n / 10) hdiv
        constructor
        · simp only [digitsAux, if_neg h10]
          rw [readDigits_append, ihv]
          have : readDigits [n % 10] = n % 10 := by simp [readDigits]
          rw [this]
          simp only [List.length_cons, List.length_nil, pow_one]
          omega
        · intro d hd
          simp only [digitsAux, if_neg h10, List.mem_append, List.mem_singleton] at hd
          rcases hd with hd | hd
          · exact ihd d hd
          · omega

lemma readDigits_digitsN (n : Nat) : readDigits (digitsN n) = n :=
  (digitsAux_sound (n + 1) n (by omega)).1

lemma digitsN_lt (n : Nat) : ∀ d ∈ digitsN n, d < 10 :=
  (digitsAux_sound (n + 1) n (by omega)).2

lemma digitsAux_len : ∀ (fuel n w : Nat), n < fuel → n < 10 ^ w → 1 ≤ w →
    (digitsAux fuel n).length ≤ w := by
  intro fuel
  induction fuel with
  | zero => intro n w h; omega
  | succ fuel ih =>
      intro n w h hw h1
      by_cases h10 : n < 10
      · simp [digitsAux, h10]; omega
      · have hw2 : 2 ≤ w := by
          by_contra hcon
          have : w = 1 := by omega
          subst this
          simp at hw
          omega
        have hdiv : n / 10 < fuel := by omega
        have hpow : n / 10 < 10 ^ (w - 1) := by
          have hx : 10 ^ w = 10 ^ (w - 1) * 10 := by
            rw [← pow_succ]
            congr 1
            omega
          rw [Nat.div_lt_iff_lt_mul (by norm_num)]
          omega
        have := ih (n / 10) (w - 1) hdiv hpow (by omega)
        simp only [digitsAux, if_neg h10, List.length_append, List.length_cons,
          List.length_nil]
        omega

lemma padNum_length (w n : Nat) (h : n < 10 ^ w) (hw : 1 ≤ w) :
    (padNum w n).length = w := by
  have hle : (digitsN n).length ≤ w := digitsAux_len (n + 1) n w (by omega) h hw
  simp [padNum, List.length_append, List.length_replicate, List.length_map]
  omega

lemma padNum2_length (n : Nat) (h : n < 100) : (padNum 2 n).length = 2 :=
  padNum_length 2 n (by norm_num; omega) (by norm_num)

lemma padNum3_length (n : Nat) (h : n < 1000) : (padNum 3 n).length = 3 :=
  padNum_length 3 n (by norm_num; omega) (by norm_num)

lemma digitChar_isDigit (d : Nat) (h : d < 10) : (digitChar d).isDigit = true := by
  interval_cases d <;> decide

lemma charVal_digitChar (d : Nat) (h : d < 10) : charVal (digitChar d) = d := by
  interval_cases d <;> decide

lemma padNum_digits (w n : Nat) : ∀ c ∈ padNum w n, c.isDigit = true := by
  intro c hc
  simp only [padNum, List.mem_append, List.mem_replicate, List.mem_map] at hc
  rcases hc with ⟨-, rfl⟩ | ⟨d, hd, rfl⟩
  · decide
  · exact digitChar_isDigit d (digitsN_lt n d hd)

lemma readNum_eq_readDigits (cs : List Char) :
    readNum cs = readDigits (cs.map charVal) := by
  simp [readNum, readDigits, List.foldl_map]

lemma readNum_padNum (w n : Nat) : readNum (padNum w n) = n := by
  rw [readNum_eq_readDigits]
  have h2 : (digitsN n).map (charVal ∘ digitChar) = digitsN n :=
    calc (digitsN n).map (charVal ∘ digitChar) = (digitsN n).map id :=
        List.map_congr_left (fun d hd => charVal_digitChar d (digitsN_lt n d hd))
      _ = digitsN n := List.map_id _
  have h0 : charVal '0' = 0 := by decide
  have hmap : (padNum w n).map charVal =
      List.replicate (w - (digitsN n).length) 0 ++ digitsN n := by
    simp only [padNum, List.map_append, List.map_replicate, List.map_map]
    rw [h2, h0]
  rw [hmap, readDigits_append, readDigits_replicate_zero, readDigits_digitsN]
  simp

lemma split12 (A B C D E : List Char) (ha : A.length = 2) (hb : B.length = 2)
    (hc : C.length = 2) (hd : D.length = 3) (he : E.length = 3) :
    (A ++ B ++ C ++ D ++ E).length = 12 ∧
    (A ++ B ++ C ++ D ++ E).take 2 = A ∧
    ((A ++ B ++ C ++ D ++ E).drop 2).take 2 = B ∧
    ((A ++ B ++ C ++ D ++ E).drop 4).take 2 = C ∧
    ((A ++ B ++ C ++ D ++ E).drop 6).take 3 = D ∧
    ((A ++ B ++ C ++ D ++ E).drop 9).take 3 = E := by
  obtain ⟨a0, a1, rfl⟩ := List.length_eq_two.mp ha
  obtain ⟨b0, b1, rfl⟩ := List.length_eq_two.mp hb
  obtain ⟨c0, c1, rfl⟩ := List.length_eq_two.mp hc
  obtain ⟨d0, d1, d2, rfl⟩ := List.length_eq_three.mp hd
  obtain ⟨e0, e1, e2, rfl⟩ := List.length_eq_three.mp he
  exact ⟨rfl, rfl, rfl, rfl, rfl, rfl⟩

/-- C4 (amended): the identifier decode fails with `MalformedMessage` for every
input that is not exactly 12 ASCII digits, and for every 12-digit input it
SUCCEEDS unconditionally, returning the parsed components — no `ValueOutOfRange`
check on hour, minute or second is performed anywhere. -/
theorem messageID_decode_no_range_check (today : Nat) (cs : List Char) :
    (¬ (cs.length = 12 ∧ cs.all Char.isDigit = true) →
      MessageID.fromChars today cs = .error (.malformedMessage [])) ∧
    (cs.length = 12 → cs.all Char.isDigit = true →
      MessageID.fromChars today cs =
        .ok ⟨today + (readNum (cs.take 2) * 3600000 +
          readNum ((cs.drop 2).take 2) * 60000 +
          readNum ((cs.drop 4).take 2) * 1000 + readNum ((cs.drop 6).take 3)),
          readNum ((cs.drop 9).take 3)⟩) := by
  constructor
  · intro h
    rw [MessageID.fromChars]
    by_cases hl : cs.length = 12
    · have hd : ¬ (cs.all Char.isDigit = true) := fun hdig => h ⟨hl, hdig⟩
      rw [if_neg (by simp [hl]), if_pos hd]
    · rw [if_pos hl]
  · intro hl hd
    rw [MessageID.fromChars, if_neg (by simp [hl]), if_neg (by simp [hd])]

/-- Witness for C4: a 1-character input is malformed; twelve digits ending in 7
decode successfully. -/
theorem messageID_decode_no_range_check_witness :
    MessageID.fromChars 0 ['9'] = .error (.malformedMessage []) ∧
    MessageID.fromChars 0 ['0','0','0','0','0','0','0','0','0','0','0','7'] =
      .ok ⟨0, 7⟩ :=
  ⟨(messageID_decode_no_range_check 0 _).1 (by decide),
   (messageID_decode_no_range_check 0 _).2 (by decide) (by decide)⟩

/-- C4 counterexample: the claim says decoding fails with `ValueOutOfRange`
whenever the hour field exceeds 23, but decoding "240000000000" (hour 24)
succeeds, yielding the timestamp 24 h past midnight. -/
theorem messageID_decode_hour24_cx :
    MessageID.fromChars 0 ['2','4','0','0','0','0','0','0','0','0','0','0'] =
      .ok ⟨86400000, 0⟩ := by
  rfl

/-- C5: for every representable identifier — a millisecond time-of-day of the
current day together with a sequence number in [0, 999] — decoding the string
produced by encoding yields the identifier back unchanged. -/
theorem messageID_decode_encode_roundtrip (d r idx : Nat) (hr : r < dayMs)
    (hidx : idx ≤ 999) :
    MessageID.fromChars (d * dayMs) (MessageID.to_string ⟨d * dayMs + r, idx⟩) =
      .ok ⟨d * dayMs + r, idx⟩ := by
  have hrN : r < 86400000 := hr
  have hmod : (d * dayMs + r) % dayMs = r := by
    show (d * 86400000 + r) % 86400000 = r
    omega
  simp only [MessageID.to_string, hmod]
  have lA : (padNum 2 (r / 3600000)).length = 2 := padNum2_length _ (by omega)
  have lB : (padNum 2 (r % 3600000 / 60000)).length = 2 := padNum2_length _ (by omega)
  have lC : (padNum 2 (r % 3600000 % 60000 / 1000)).length = 2 :=
    padNum2_length _ (by omega)
  have lD : (padNum 3 (r % 3600000 % 60000 % 1000)).length = 3 :=
    padNum3_length _ (by omega)
  have lE : (padNum 3 idx).length = 3 := padNum3_length _ (by omega)
  obtain ⟨h12, t1, t2, t3, t4, t5⟩ := split12 _ _ _ _ _ lA lB lC lD lE
  have hall : ((padNum 2 (r / 3600000) ++ padNum 2 (r % 3600000 / 60000) ++
      padNum 2 (r % 3600000 % 60000 / 1000) ++
      padNum 3 (r % 3600000 % 60000 % 1000) ++
      padNum 3 idx).all Char.isDigit) = true := by
    rw [List.all_eq_true]
    intro c hc
    simp only [List.mem_append, or_assoc] at hc
    rcases hc with hc | hc | hc | hc | hc <;> exact padNum_digits _ _ c hc
  rw [MessageID.fromChars, if_neg (by simp only [h12]; decide),
    if_neg (by simp only [hall]; decide)]
  simp only [t1, t2, t3, t4, t5, readNum_padNum]
  have harith : r / 3600000 * 3600000 + r % 3600000 / 60000 * 60000 +
      r % 3600000 % 60000 / 1000 * 1000 + r % 3600000 % 60000 % 1000 = r := by
    omega
  rw [harith]

/-- Witness for C5 at day 1, time-of-day 123456 ms, sequence 7. -/
theorem messageID_decode_encode_roundtrip_witness :
    MessageID.fromChars (1 * dayMs)
        (MessageID.to_string ⟨1 * dayMs + 123456, 7⟩) =
      .ok ⟨1 * dayMs + 123456, 7⟩ :=
  messageID_decode_encode_roundtrip 1 123456 7 (by decide) (by decide)

/-- C6 (amended): the rendered form of an identifier is exactly 12 ASCII digits
whenever its sequence index is at most 999 (`setw(3)` only guarantees a MINIMUM
width, so the claim's unrestricted form fails for larger indices). -/
theorem messageID_to_string_twelve_digits (id : MessageID)
    (h : id.messageIndex ≤ 999) :
    id.to_string.length = 12 ∧ id.to_string.all Char.isDigit = true := by
  have hm : id.timeSent % dayMs < 86400000 :=
    Nat.mod_lt _ (by norm_num [dayMs])
  simp only [MessageID.to_string]
  have lA : (padNum 2 (id.timeSent % dayMs / 3600000)).length = 2 :=
    padNum2_length _ (by omega)
  have lB : (padNum 2 (id.timeSent % dayMs % 3600000 / 60000)).length = 2 :=
    padNum2_length _ (by omega)
  have lC : (padNum 2 (id.timeSent % dayMs % 3600000 % 60000 / 1000)).length = 2 :=
    padNum2_length _ (by omega)
  have lD : (padNum 3 (id.timeSent % dayMs % 3600000 % 60000 % 1000)).length = 3 :=
    padNum3_length _ (by omega)
  have lE : (padNum 3 id.messageIndex).length = 3 := padNum3_length _ (by omega)
  constructor
  · simp only [List.length_append, lA, lB, lC, lD, lE]
  · rw [List.all_eq_true]
    intro c hc
    simp only [List.mem_append, or_assoc] at hc
    rcases hc with hc | hc | hc | hc | hc <;> exact padNum_digits _ _ c hc

/-- Witness for the amended C6 at the last representable instant of a day. -/
theorem messageID_to_string_twelve_digits_witness :
    (MessageID.to_string ⟨86399999, 999⟩).length = 12 ∧
    (MessageID.to_string ⟨86399999, 999⟩).all Char.isDigit = true :=
  messageID_to_string_twelve_digits ⟨86399999, 999⟩ (by decide)

/-- C6 counterexample: an identifier whose index field holds 1000 (the field is
a `uint16_t`, and `GenerateNew` steps the counter 999 → 1000 when the clock
reading repeats) renders as 13 characters, not 12. -/
theorem messageID_to_string_index1000_cx :
    (MessageID.to_string ⟨0, 1000⟩).length = 13 ∧
    (MessageID.GenerateNew 5 ⟨5, 999⟩).1.messageIndex = 1000 ∧
    (MessageID.to_string (MessageID.GenerateNew 5 ⟨5, 999⟩).1).length = 13 := by
  refine ⟨rfl, rfl, rfl⟩

/-! Facts about object updates and `Except` plumbing. -/

lemma lookupKey_upsertKey (kvs : List (String × Json)) (k : String) (v : Json)
    (q : String) :
    lookupKey (upsertKey kvs k v) q = if k = q then some v else lookupKey kvs q := by
  induction kvs with
  | nil => simp [upsertKey, lookupKey]
  | cons kv rest ih =>
      obtain ⟨a, b⟩ := kv
      by_cases hak : a = k
      · subst hak
        simp only [upsertKey, if_pos rfl, lookupKey]
        by_cases haq : a = q <;> simp [haq, lookupKey]
      · simp only [upsertKey, if_neg hak, lookupKey]
        rw [ih]
        split_ifs <;> simp_all

lemma getKey_setKey (j : Json) (k : String) (v : Json) (q : String) :
    (j.setKey k v).getKey q = if k = q then some v else j.getKey q := by
  cases j <;>
    simp [Json.setKey, Json.getKey, lookupKey_upsertKey, lookupKey]

lemma containsKey_setKey (j : Json) (k : String) (v : Json) (q : String) :
    (j.setKey k v).containsKey q = if k = q then true else j.containsKey q := by
  simp only [Json.containsKey, getKey_setKey]
  by_cases h : k = q <;> simp [h]

lemma except_ok_bind {α β : Type} (a : α) (f : α → Except VErr β) :
    (Except.ok a >>= f) = f a := rfl

lemma except_error_bind {α β : Type} (e : VErr) (f : α → Except VErr β) :
    ((Except.error e : Except VErr α) >>= f) = Except.error e := rfl

lemma except_pure {α : Type} (a : α) : (pure a : Except VErr α) = Except.ok a := rfl

lemma except_bind_pure_comp {α β : Type} (e : Except VErr α) (f : α → β) :
    (e >>= fun a => pure (f a) : Except VErr β) = Except.map f e := by
  cases e <;> rfl

lemma except_throw {α : Type} (e : VErr) :
    (throw e : Except VErr α) = Except.error e := rfl

lemma except_fmap {α β : Type} (f : α → β) (e : Except VErr α) :
    (f <$> e) = Except.map f e := rfl

lemma except_map_error {α β : Type} (f : α → β) (e : VErr) :
    Except.map f (Except.error e : Except VErr α) = Except.error e := rfl

lemma getKey_nil (q : String) : (Json.jobj []).getKey q = none := rfl

/-- C8 (amended): channel-identifier decode fails with `MissingField` when
either named field is absent and with `TypeMismatch` when a present field is
not stored as an unsigned JSON number; a present unsigned type value, however,
is NEVER checked against the closed kind set — it is narrowed modulo 256 (and
the index modulo 65536) and accepted. -/
theorem channelID_decode_checks (j : Json) (idxName typeName : String) :
    (j.getKey typeName = none →
      ChannelID.fromJson j idxName typeName = .error (.missingField typeName)) ∧
    (∀ tv, j.getKey typeName = some tv → tv.isNumberUnsigned = false →
      ChannelID.fromJson j idxName typeName = .error (.typeMismatch typeName)) ∧
    (∀ tv, j.getKey typeName = some tv → tv.isNumberUnsigned = true →
      j.getKey idxName = none →
      ChannelID.fromJson j idxName typeName = .error (.missingField idxName)) ∧
    (∀ tv iv, j.getKey typeName = some tv → tv.isNumberUnsigned = true →
      j.getKey idxName = some iv → iv.isNumberUnsigned = false →
      ChannelID.fromJson j idxName typeName = .error (.typeMismatch idxName)) ∧
    (∀ t i, j.getKey typeName = some (.junsigned t) →
      j.getKey idxName = some (.junsigned i) →
      ChannelID.fromJson j idxName typeName = .ok ⟨i % 65536, t % 256⟩) := by
  refine ⟨?_, ?_, ?_, ?_, ?_⟩
  · intro h
    simp [ChannelID.fromJson, h]
  · intro tv h1 h2
    simp [ChannelID.fromJson, h1, h2]
  · intro tv h1 h2 h3
    simp [ChannelID.fromJson, h1, h2, h3]
  · intro tv iv h1 h2 h3 h4
    simp [ChannelID.fromJson, h1, h2, h3, h4]
  · intro t i h1 h2
    simp [ChannelID.fromJson, h1, h2, Json.isNumberUnsigned, Json.unsignedVal]

/-- Witness for C8: a missing index field is reported as `MissingField`, and a
well-formed pair of unsigned fields decodes. -/
theorem channelID_decode_checks_witness :
    ChannelID.fromJson (.jobj [(kChannelType, .junsigned 1)]) kChannelIndex
      kChannelType = .error (.missingField kChannelIndex) ∧
    ChannelID.fromJson
      (.jobj [(kChannelIndex, .junsigned 7), (kChannelType, .junsigned 2)])
      kChannelIndex kChannelType = .ok ⟨7, 2⟩ :=
  ⟨(channelID_decode_checks _ kChannelIndex kChannelType).2.2.1
      (.junsigned 1) rfl rfl rfl,
   (channelID_decode_checks _ kChannelIndex kChannelType).2.2.2.2 2 7 rfl rfl⟩

/-- C8 counterexample: a channelType value of 3 lies outside the closed kind
set Transmit=0 / Receive=1 / Auxiliary=2, yet the constructor accepts it
(casting it straight into the kind enum) instead of failing with
`TypeMismatch` as the claim requires. -/
theorem channelID_type3_accepted_cx :
    ChannelID.fromJson
      (.jobj [(kChannelIndex, .junsigned 0), (kChannelType, .junsigned 3)])
      kChannelIndex kChannelType = .ok ⟨0, 3⟩ := rfl

/-- C3: `Parameter::operator bool` does not re-derive the range/step rule:
with minValue 0, maxValue 10, precision 2 it reports value 4 valid AND value 5
valid, although (5 − 0) mod 2 ≠ 0 — contradicting the validity formula stated
in the struct's own documentation and enforced by the int constructor. -/
theorem parameter_isValid_skips_step_check :
    Parameter.isValid ⟨pGain, kNumber, some uDB, .pint 4, some (.nint 0),
      some (.nint 10), some (.nint 2), false⟩ = true ∧
    Parameter.isValid ⟨pGain, kNumber, some uDB, .pint 5, some (.nint 0),
      some (.nint 10), some (.nint 2), false⟩ = true :=
  ⟨rfl, rfl⟩

/-- C2: the Parameter codec does not round-trip: a fully valid editable int
parameter encodes with its stored dataType "number", which the decoder rejects
with the unknown-dataType error, so decode(encode(p)) fails instead of
reproducing p. -/
theorem parameter_number_roundtrip_fails :
    Parameter.isValid ⟨pGain, kNumber, some uDB, .pint 4, some (.nint 0),
      some (.nint 10), some (.nint 2), false⟩ = true ∧
    ∃ jj, Parameter.to_json ⟨pGain, kNumber, some uDB, .pint 4, some (.nint 0),
        some (.nint 10), some (.nint 2), false⟩ = .ok jj ∧
      Parameter.fromJson pGain jj = .error (.unknownDataType kNumber) :=
  ⟨rfl, ⟨_, rfl, rfl⟩⟩

/-- C10: the programmatic ChannelLink / ChannelUnlink / InfoRequest
constructors succeed exactly when the optionals they dereference are engaged;
with `nullopt` — which their interfaces and documentation permit, e.g. an
absent receiving channel for auxiliary links — the unconditional
`*recvChan` / `*respId` dereference hits the empty optional (undefined
behaviour, modelled as `none`). -/
theorem prog_ctors_deref_optionals (msgId : MessageID) (outbound : Bool)
    (sendChan chan : ChannelID) (recvChan : Option ChannelID)
    (respId : Option MessageID) :
    ((ChannelLink.mkProg msgId outbound sendChan recvChan respId).isSome = true ↔
      recvChan.isSome = true ∧ respId.isSome = true) ∧
    ((ChannelUnlink.mkProg msgId outbound sendChan recvChan respId).isSome = true ↔
      recvChan.isSome = true ∧ respId.isSome = true) ∧
    ((InfoRequest.mkProg msgId outbound chan respId).isSome = true ↔
      respId.isSome = true) ∧
    ((InfoRequest.mkProgNoId outbound chan respId).isSome = true ↔
      respId.isSome = true) ∧
    ChannelLink.mkProg msgId outbound sendChan none respId = none ∧
    ChannelUnlink.mkProg msgId outbound sendChan none respId = none ∧
    InfoRequest.mkProg msgId outbound chan none = none ∧
    InfoRequest.mkProgNoId outbound chan none = none := by
  rcases recvChan with _ | rc <;> rcases respId with _ | rid <;>
    simp [ChannelLink.mkProg, ChannelUnlink.mkProg, InfoRequest.mkProg,
      InfoRequest.mkProgNoId]

/-- C1 (amended): the dispatcher fails with `MalformedMessage` listing the
object's keys when messageType is absent, delegates to the ChannelLink or
ChannelUnlink parser for exactly those two tags, and fails with
`UnknownMessageType` naming the received tag for EVERY other string tag —
including endResponse, errorResponse, infoRequest and infoResponse, whose
variant parsers are never reachable from the dispatcher. -/
theorem dispatcher_closed_set (today : Nat) (j : Json) (outbound : Bool) :
    (j.containsKey kMessageType = false →
      Message.FromJSON today j outbound = .error (.malformedMessage j.keys)) ∧
    (j.getKey kMessageType = some (.jstr kChannelLink) →
      Message.FromJSON today j outbound =
        Except.map Msg.link (ChannelLink.fromJson today j outbound)) ∧
    (j.getKey kMessageType = some (.jstr kChannelUnlink) →
      Message.FromJSON today j outbound =
        Except.map Msg.unlink (ChannelUnlink.fromJson today j outbound)) ∧
    (∀ mt, j.getKey kMessageType = some (.jstr mt) → mt ≠ kChannelLink →
      mt ≠ kChannelUnlink →
      Message.FromJSON today j outbound = .error (.unknownMessageType mt)) := by
  refine ⟨?_, ?_, ?_, ?_⟩
  · intro h
    simp [Message.FromJSON, h, except_throw, except_error_bind]
  · intro h
    have hc : j.containsKey kMessageType = true := by
      simp [Json.containsKey, h]
    simp [Message.FromJSON, hc, Json.atKey, h, Json.getStr, except_ok_bind,
      except_fmap]
  · intro h
    have hc : j.containsKey kMessageType = true := by
      simp [Json.containsKey, h]
    simp [Message.FromJSON, hc, Json.atKey, h, Json.getStr, kChannelUnlink,
      kChannelLink, except_ok_bind, except_fmap]
  · intro mt h hne1 hne2
    have hc : j.containsKey kMessageType = true := by
      simp [Json.containsKey, h]
    simp [Message.FromJSON, hc, Json.atKey, h, Json.getStr, hne1, hne2,
      except_ok_bind, except_throw]

/-- Witness for C1: a tagless object is rejected with its key list, and a
channelLink-tagged object is delegated to the ChannelLink parser. -/
theorem dispatcher_closed_set_witness :
    Message.FromJSON 0 (.jobj [(kValue, .jnull)]) false =
      .error (.malformedMessage [kValue]) ∧
    Message.FromJSON 0 (.jobj [(kMessageType, .jstr kChannelLink)]) false =
      Except.map Msg.link
        (ChannelLink.fromJson 0 (.jobj [(kMessageType, .jstr kChannelLink)])
          false) :=
  ⟨(dispatcher_closed_set 0 _ false).1 rfl,
   (dispatcher_closed_set 0 _ false).2.1 rfl⟩

/-- C1 counterexample: a fully well-formed endResponse object — one of the
tags the claim says is delegated to its variant parser — is instead rejected
by the dispatcher with `UnknownMessageType`. -/
theorem dispatcher_endResponse_cx :
    Message.FromJSON 0
      (.jobj [(kMessageType, .jstr kEndResponse),
        (kMessageID, Json.jstr ("143052847000")),
        (kResponseID, Json.jstr ("143052846000"))]) false =
      .error (.unknownMessageType kEndResponse) := rfl

/-- C7: encoding a ChannelLink or ChannelUnlink whose sending channel is not
auxiliary and whose receiving channel is absent fails with
`ConstraintViolation`; with an auxiliary sending channel the same message
encodes successfully and the produced JSON omits both receiving-channel
fields. -/
theorem encode_requires_receiving_channel (fresh : MessageID)
    (mL : ChannelLink) (mU : ChannelUnlink) :
    (mL.sendingChannel.IsAux = false → mL.receivingChannel = none →
      ChannelLink.to_json fresh mL = .error .constraintViolation) ∧
    (mL.sendingChannel.IsAux = true → mL.receivingChannel = none →
      ∃ jj, ChannelLink.to_json fresh mL = .ok jj ∧
        jj.containsKey kChannelIndex = false ∧
        jj.containsKey kChannelType = false) ∧
    (mU.sendingChannel.IsAux = false → mU.receivingChannel = none →
      ChannelUnlink.to_json fresh mU = .error .constraintViolation) ∧
    (mU.sendingChannel.IsAux = true → mU.receivingChannel = none →
      ∃ jj, ChannelUnlink.to_json fresh mU = .ok jj ∧
        jj.containsKey kChannelIndex = false ∧
        jj.containsKey kChannelType = false) := by
  refine ⟨?_, ?_, ?_, ?_⟩
  · intro ha hn
    simp [ChannelLink.to_json, ha, hn, except_throw, except_fmap,
      except_map_error]
  · intro ha hn
    rcases hr : mL.responseID with _ | rid <;>
      by_cases hs : mL.selfID.isSet = true <;>
        · simp only [ChannelLink.to_json, ha, hn, hr, hs, Bool.not_true,
            Bool.not_false, Bool.false_and, Bool.true_and, Option.isNone_none,
            Bool.and_true, if_false, if_true, ite_true, ite_false,
            Bool.false_eq_true, except_pure]
          refine ⟨_, rfl, ?_, ?_⟩ <;>
            simp [ChannelID.AppendJson, Json.containsKey, getKey_setKey,
              getKey_nil, kSendingChannelIndex, kSendingChannelType,
              kMessageType, kMessageID, kResponseID, kChannelIndex,
              kChannelType]
  · intro ha hn
    simp [ChannelUnlink.to_json, ha, hn, except_throw, except_fmap,
      except_map_error]
  · intro ha hn
    rcases hr : mU.responseID with _ | rid <;>
      by_cases hs : mU.selfID.isSet = true <;>
        · simp only [ChannelUnlink.to_json, ha, hn, hr, hs, Bool.not_true,
            Bool.not_false, Bool.false_and, Bool.true_and, Option.isNone_none,
            Bool.and_true, if_false, if_true, ite_true, ite_false,
            Bool.false_eq_true, except_pure]
          refine ⟨_, rfl, ?_, ?_⟩ <;>
            simp [ChannelID.AppendJson, Json.containsKey, getKey_setKey,
              getKey_nil, kSendingChannelIndex, kSendingChannelType,
              kMessageType, kMessageID, kResponseID, kChannelIndex,
              kChannelType]

/-- Witness for C7 at concrete messages: a transmit-kind sender with no
receiver is rejected; an auxiliary sender with no receiver encodes and the
output carries no receiving-channel fields. -/
theorem encode_requires_receiving_channel_witness :
    ChannelLink.to_json ⟨3, 0⟩ ⟨⟨1, 0⟩, none, true, ⟨0, 0⟩, none⟩ =
      .error .constraintViolation ∧
    ∃ jj, ChannelLink.to_json ⟨3, 0⟩ ⟨⟨1, 0⟩, none, true, ⟨0, 2⟩, none⟩ =
        .ok jj ∧
      jj.containsKey kChannelIndex = false ∧
      jj.containsKey kChannelType = false :=
  ⟨(encode_requires_receiving_channel ⟨3, 0⟩ ⟨⟨1, 0⟩, none, true, ⟨0, 0⟩, none⟩
      ⟨⟨1, 0⟩, none, true, ⟨0, 0⟩, none⟩).1 rfl rfl,
   (encode_requires_receiving_channel ⟨3, 0⟩ ⟨⟨1, 0⟩, none, true, ⟨0, 2⟩, none⟩
      ⟨⟨1, 0⟩, none, true, ⟨0, 0⟩, none⟩).2.1 rfl rfl⟩

/-- C9: `InfoResponse::to_json` writes the REQUEST tag: encoding a well-formed
InfoResponse produces a messageType of "infoRequest", not the semantically
correct response tag "infoResponse". -/
theorem infoResponse_encode_emits_request_tag :
    ∃ jj, InfoResponse.to_json ⟨0, 0⟩
        ⟨⟨1, 0⟩, some ⟨2, 0⟩, false, ⟨0, 0⟩, [], []⟩ = .ok jj ∧
      jj.getKey kMessageType = some (.jstr kInfoRequest) ∧
      kInfoRequest ≠ kInfoResponse :=
  ⟨_, rfl, rfl, by decide⟩
